import Mathlib

/-!
Shallow embedding of `homeassistant/components/zigbee.py`: the ZigBee pin
configuration classes (`ZigBeeConfig`, `ZigBeePinConfig`,
`ZigBeeDigitalPinConfig`, `ZigBeeDigitalOutConfig`, `ZigBeeAnalogInConfig`)
and the pin entities (`ZigBeeDigitalIn`, `ZigBeeDigitalOut`,
`ZigBeeAnalogIn`), together with theorems settling the behavioural claims
about polarity mapping, polling defaults, voltage configuration, write/read
state transitions and configuration-error timing.

Modelling conventions:
* Python dicts become `Dict` (an association list with Python's
  insert-overwrites, insertion-ordered semantics).
* Python config values become `PyVal` (strings, booleans, ints, and floats
  modelled as rationals).
* Raising an exception becomes returning `Except PyErr _`; straight-line
  methods that mutate `self` become functions from the prior state to an
  outcome record carrying the propagated exception (if any), the new cached
  state, and the emitted notifications.
* The driver sentinels `GPIO_DIGITAL_OUTPUT_LOW` / `GPIO_DIGITAL_OUTPUT_HIGH`
  (module globals copied from `xbee_helper.const` during `setup`) become an
  explicit `DriverConsts` parameter of opaque `RawLevel` (= `Nat`) values.
* Driver I/O (`DEVICE.get_gpio_pin`, `DEVICE.set_gpio_pin`,
  `DEVICE.read_analog_pin`) is an external collaborator: its result is passed
  to `update`/`_set_state` as an `Except`-valued oracle argument.
-/

/-- A raw hardware signal level: an opaque sentinel value owned by the driver
(`xbee_helper`).  Modelled as `Nat` so distinct sentinels are distinct
values. -/
abbrev RawLevel : Type := Nat

/-- The driver constants `GPIO_DIGITAL_OUTPUT_LOW` and
`GPIO_DIGITAL_OUTPUT_HIGH`, copied from `xbee_helper.const` into module
globals during `setup()`.  Passed explicitly to the definitions that read
those globals. -/
structure DriverConsts where
  gpioLow : RawLevel
  gpioHigh : RawLevel
deriving Repr

/-- A Python value as it appears in the declarative configuration mapping:
a string, a boolean, an integer, or a float (modelled as a rational). -/
inductive PyVal where
  | str (s : String)
  | bool (b : Bool)
  | int (n : Int)
  | rat (q : ℚ)
deriving DecidableEq, Repr

/-- Python exceptions that the embedded code can raise. -/
inductive PyErr where
  /-- `KeyError` from subscripting the config mapping with a missing
  string key (`self._config["name"]`, `self._config["pin"]`). -/
  | keyError (key : String)
  /-- `KeyError` from subscripting `state2bool` with a raw level outside the
  two configured sentinels; the spec's taxonomy calls this
  `UnmappedRawLevelError`. -/
  | unmappedRawLevel (level : RawLevel)
  /-- `KeyError` from subscripting `bool2state` with a boolean key
  (never actually reachable: both keys are always present). -/
  | boolKeyError (key : Bool)
  /-- `binascii.Error` from `unhexlify` on a malformed hex string. -/
  | binasciiError
  /-- `TypeError` from passing a non-string to `unhexlify`. -/
  | typeError
  /-- `ValueError` from `float()` on an unparsable string. -/
  | valueError
  /-- A transport/driver error surfaced by a `DEVICE` call. -/
  | driverError (code : Nat)
deriving DecidableEq, Repr

/-- A Python `dict`: an insertion-ordered association list where inserting an
existing key overwrites it in place. -/
abbrev Dict (α β : Type) : Type := List (α × β)

/-- The empty dict `{}`. -/
def Dict.empty {α β : Type} : Dict α β := []

/-- `d[k] = v`: overwrite in place if `k` is present, else append. -/
def Dict.insert {α β : Type} [DecidableEq α] : Dict α β → α → β → Dict α β
  | [], k, v => [(k, v)]
  | (k', v') :: rest, k, v =>
    if k' = k then (k, v) :: rest else (k', v') :: Dict.insert rest k v

/-- `d.get(k)`: `some` of the stored value, or `none` when absent. -/
def Dict.get? {α β : Type} [DecidableEq α] : Dict α β → α → Option β
  | [], _ => none
  | (k', v') :: rest, k => if k' = k then some v' else Dict.get? rest k

/-- `d.items()` in insertion order. -/
def Dict.items {α β : Type} (d : Dict α β) : List (α × β) := d

/-- The declarative configuration mapping handed to each config class. -/
abbrev Config : Type := Dict String PyVal

/-- `config.get(key, default)`. -/
def Config.getD (config : Config) (key : String) (dflt : PyVal) : PyVal :=
  (Dict.get? config key).getD dflt

/-- `config.get(key)` (default `None`, modelled as `Option`). -/
def Config.get? (config : Config) (key : String) : Option PyVal :=
  Dict.get? config key

/-- One hex digit's value, accepting both cases, as `binascii` does. -/
def hexVal? (c : Char) : Option Nat :=
  if '0' ≤ c ∧ c ≤ '9' then some (c.toNat - '0'.toNat)
  else if 'a' ≤ c ∧ c ≤ 'f' then some (c.toNat - 'a'.toNat + 10)
  else if 'A' ≤ c ∧ c ≤ 'F' then some (c.toNat - 'A'.toNat + 10)
  else none

/-- Pair up hex digits into bytes; `none` on odd length or a non-hex digit. -/
def unhexlifyChars : List Char → Option (List Nat)
  | [] => some []
  | [_] => none
  | c1 :: c2 :: rest =>
    match hexVal? c1, hexVal? c2, unhexlifyChars rest with
    | some hi, some lo, some bs => some ((hi * 16 + lo) :: bs)
    | _, _, _ => none

/-- `binascii.unhexlify`: decode a hexadecimal string to bytes; raises
`binascii.Error` on odd length or a non-hexadecimal digit. -/
def unhexlify (s : String) : Except PyErr (List Nat) :=
  match unhexlifyChars s.toList with
  | some bs => Except.ok bs
  | none => Except.error PyErr.binasciiError

/-- Accumulate a decimal digit string into a natural number
(`none` if any character is not a digit). -/
def decDigits? (cs : List Char) : Option Nat :=
  cs.foldl
    (fun acc c =>
      match acc, hexVal? c with
      | some n, some d => if d < 10 then some (n * 10 + d) else none
      | _, _ => none)
    (some 0)

/-- Strip leading and trailing whitespace, as `float()` does. -/
def trimChars (cs : List Char) : List Char :=
  (((cs.dropWhile Char.isWhitespace).reverse.dropWhile Char.isWhitespace).reverse)

/-- Parse a plain decimal float literal (optional sign, digits, optional
fractional part); the exponent/inf/nan forms Python also accepts are not
needed by any configuration in scope. -/
def pyParseFloat (s : String) : Option ℚ :=
  let cs := trimChars s.toList
  let (sign, body) : ℚ × List Char :=
    match cs with
    | '-' :: rest => (-1, rest)
    | '+' :: rest => (1, rest)
    | _ => (1, cs)
  let intPart := body.takeWhile (fun c => c.isDigit)
  let rest := body.dropWhile (fun c => c.isDigit)
  match rest with
  | [] =>
    match decDigits? intPart with
    | some n => if intPart.isEmpty then none else some (sign * n)
    | none => none
  | '.' :: frac =>
    if intPart.isEmpty ∧ frac.isEmpty then none
    else
      match decDigits? intPart, decDigits? frac with
      | some n, some f => some (sign * ((n : ℚ) + (f : ℚ) / ((10 : ℚ) ^ frac.length)))
      | _, _ => none
  | _ => none

/-- Python `float(x)`: numbers pass through (bools are ints), strings are
parsed, an unparsable string raises `ValueError`. -/
def pyFloat : PyVal → Except PyErr ℚ
  | PyVal.str s =>
    match pyParseFloat s with
    | some q => Except.ok q
    | none => Except.error PyErr.valueError
  | PyVal.bool b => Except.ok (if b then 1 else 0)
  | PyVal.int n => Except.ok (n : ℚ)
  | PyVal.rat q => Except.ok q

/-- Python truthiness of a config value, used by `if not self.should_poll`. -/
def pyTruthy : PyVal → Bool
  | PyVal.str s => s != ""
  | PyVal.bool b => b
  | PyVal.int n => n != 0
  | PyVal.rat q => q != 0

/-- `DEFAULT_ADC_MAX_VOLTS = 1.2`. -/
def DEFAULT_ADC_MAX_VOLTS : ℚ := 6 / 5

/-- `ZigBeeConfig`: stores the raw mapping and
`self._should_poll = config.get("poll", True)`. -/
structure ZigBeeConfig where
  _config : Config
  _should_poll : PyVal
deriving Repr

/-- `ZigBeeConfig.__init__`. -/
def ZigBeeConfig.init (config : Config) : ZigBeeConfig :=
  { _config := config
    _should_poll := Config.getD config "poll" (PyVal.bool true) }

/-- Property `name`: `self._config["name"]` (raises `KeyError` when absent —
only at access time). -/
def ZigBeeConfig.name (c : ZigBeeConfig) : Except PyErr PyVal :=
  match Config.get? c._config "name" with
  | some v => Except.ok v
  | none => Except.error (PyErr.keyError "name")

/-- Property `address`: `config.get("address")`; when present, `unhexlify`
it, otherwise `None`.  Evaluated on every access, not at construction. -/
def ZigBeeConfig.address (c : ZigBeeConfig) : Except PyErr (Option (List Nat)) :=
  match Config.get? c._config "address" with
  | none => Except.ok none
  | some (PyVal.str s) => (unhexlify s).map some
  | some _ => Except.error PyErr.typeError

/-- Property `should_poll`: returns `self._should_poll`. -/
def ZigBeeConfig.should_poll (c : ZigBeeConfig) : PyVal :=
  c._should_poll

/-- `ZigBeePinConfig` adds only the `pin` property; the stored state is the
base class's. -/
abbrev ZigBeePinConfig : Type := ZigBeeConfig

/-- `ZigBeePinConfig.__init__` is inherited unchanged. -/
def ZigBeePinConfig.init (config : Config) : ZigBeePinConfig :=
  ZigBeeConfig.init config

/-- Property `pin`: `self._config["pin"]` (raises `KeyError` when absent —
only at access time). -/
def ZigBeePinConfig.pin (c : ZigBeePinConfig) : Except PyErr PyVal :=
  match Config.get? c._config "pin" with
  | some v => Except.ok v
  | none => Except.error (PyErr.keyError "pin")

/-- Python `str.lower()`, character by character (the configuration strings
in scope are ASCII). -/
def pyLower (s : String) : String :=
  ⟨s.data.map Char.toLower⟩

/-- `config.get("on_state", "").lower() == "low"`: the polarity test in
`boolean_maps`.  (A non-string `on_state` value would raise
`AttributeError` at `.lower()` in Python; the theorems below only quantify
over absent or string-valued `on_state`.) -/
def onStateIsLow (config : Config) : Bool :=
  match Config.getD config "on_state" (PyVal.str "") with
  | PyVal.str s => pyLower s == "low"
  | _ => false

/-- Property `boolean_maps` of `ZigBeeDigitalPinConfig`: build the
`bool2state` dict from the configured polarity, then derive `state2bool`
as the comprehension `{v: k for k, v in bool2state.items()}`. -/
def boolean_maps (dc : DriverConsts) (config : Config) :
    Dict Bool RawLevel × Dict RawLevel Bool :=
  let bool2state : Dict Bool RawLevel :=
    if onStateIsLow config then
      Dict.insert (Dict.insert Dict.empty true dc.gpioLow) false dc.gpioHigh
    else
      Dict.insert (Dict.insert Dict.empty true dc.gpioHigh) false dc.gpioLow
  let state2bool : Dict RawLevel Bool :=
    (Dict.items bool2state).foldl (fun d kv => Dict.insert d kv.2 kv.1) Dict.empty
  (bool2state, state2bool)

/-- `ZigBeeDigitalPinConfig`: the base fields plus the two polarity dicts
computed once in `__init__` from `boolean_maps`. -/
structure ZigBeeDigitalPinConfig extends ZigBeeConfig where
  _bool2state : Dict Bool RawLevel
  _state2bool : Dict RawLevel Bool
deriving Repr

/-- `ZigBeeDigitalPinConfig.__init__`: call the base init, then
`self._bool2state, self._state2bool = self.boolean_maps`. -/
def ZigBeeDigitalPinConfig.init (dc : DriverConsts) (config : Config) :
    ZigBeeDigitalPinConfig :=
  let base := ZigBeeConfig.init config
  let maps := boolean_maps dc config
  { base with _bool2state := maps.1, _state2bool := maps.2 }

/-- Property `bool2state`. -/
def ZigBeeDigitalPinConfig.bool2state (c : ZigBeeDigitalPinConfig) :
    Dict Bool RawLevel :=
  c._bool2state

/-- Property `state2bool`. -/
def ZigBeeDigitalPinConfig.state2bool (c : ZigBeeDigitalPinConfig) :
    Dict RawLevel Bool :=
  c._state2bool

/-- `ZigBeeDigitalInConfig = ZigBeeDigitalPinConfig` (alias in the source). -/
def ZigBeeDigitalInConfig.init (dc : DriverConsts) (config : Config) :
    ZigBeeDigitalPinConfig :=
  ZigBeeDigitalPinConfig.init dc config

/-- `ZigBeeDigitalOutConfig.__init__`: run the parent init, then re-assign
`self._should_poll = config.get("poll", False)`. -/
def ZigBeeDigitalOutConfig.init (dc : DriverConsts) (config : Config) :
    ZigBeeDigitalPinConfig :=
  let c := ZigBeeDigitalPinConfig.init dc config
  { c with _should_poll := Config.getD config "poll" (PyVal.bool false) }

/-- `ZigBeeAnalogInConfig` adds only the `max_voltage` property over
`ZigBeePinConfig`; `__init__` is inherited. -/
def ZigBeeAnalogInConfig.init (config : Config) : ZigBeePinConfig :=
  ZigBeeConfig.init config

/-- Property `max_voltage`:
`float(self._config.get("max_volts", DEFAULT_ADC_MAX_VOLTS))`. -/
def ZigBeeAnalogInConfig.max_voltage (c : ZigBeePinConfig) : Except PyErr ℚ :=
  pyFloat (Config.getD c._config "max_volts" (PyVal.rat DEFAULT_ADC_MAX_VOLTS))

/-- Cached entity state plus the side effects of one method call:
`result` is the method's normal/exceptional outcome, `_state` the cached
boolean after the call, `notifications` the states pushed to the host
platform via `update_ha_state` during the call (in order), and `written`
the raw level handed to `DEVICE.set_gpio_pin` if a write was issued. -/
structure DigitalOutcome where
  result : Except PyErr Unit
  _state : Bool
  notifications : List Bool
  written : Option RawLevel
deriving Repr

/-- `ZigBeeDigitalIn`: config reference plus cached boolean state. -/
structure ZigBeeDigitalIn where
  _config : ZigBeeDigitalPinConfig
  _state : Bool
deriving Repr

/-- `ZigBeeDigitalIn.__init__`: store the config and set
`self._state = False`.  (The scheduled asynchronous initial refresh is host
platform machinery, outside this core.) -/
def ZigBeeDigitalIn.init (config : ZigBeeDigitalPinConfig) : ZigBeeDigitalIn :=
  { _config := config, _state := false }

/-- Property `is_on`. -/
def ZigBeeDigitalIn.is_on (e : ZigBeeDigitalIn) : Bool :=
  e._state

/-- Property `state`: `STATE_ON` / `STATE_OFF`. -/
def ZigBeeDigitalIn.state (e : ZigBeeDigitalIn) : String :=
  if e.is_on then "on" else "off"

/-- `ZigBeeDigitalIn.update`: evaluate `self._config.pin` and
`self._config.address`, call `DEVICE.get_gpio_pin` (its result is the
oracle argument `driverRes`), then set
`self._state = self._config.state2bool[pin_state]`; a raw level missing
from `state2bool` raises `KeyError` (the spec's `UnmappedRawLevelError`),
leaving the cached state at its prior value. -/
def ZigBeeDigitalIn.update (e : ZigBeeDigitalIn)
    (driverRes : Except PyErr RawLevel) : DigitalOutcome :=
  match ZigBeePinConfig.pin e._config.toZigBeeConfig with
  | Except.error err => ⟨Except.error err, e._state, [], none⟩
  | Except.ok _pin =>
    match ZigBeeConfig.address e._config.toZigBeeConfig with
    | Except.error err => ⟨Except.error err, e._state, [], none⟩
    | Except.ok _addr =>
      match driverRes with
      | Except.error err => ⟨Except.error err, e._state, [], none⟩
      | Except.ok pin_state =>
        match Dict.get? (ZigBeeDigitalPinConfig.state2bool e._config) pin_state with
        | some b => ⟨Except.ok (), b, [], none⟩
        | none =>
          ⟨Except.error (PyErr.unmappedRawLevel pin_state), e._state, [], none⟩

/-- `ZigBeeDigitalOut._set_state`: evaluate `self._config.pin`,
`self._config.bool2state[state]` and `self._config.address`, issue
`DEVICE.set_gpio_pin` (result given by the oracle `writeRes`); on success
set `self._state = state` and, when `not self.should_poll`, call
`self.update_ha_state()`; any exception propagates and leaves the cached
state and notifications untouched. -/
def ZigBeeDigitalOut._set_state (e : ZigBeeDigitalIn)
    (writeRes : Except PyErr Unit) (state : Bool) : DigitalOutcome :=
  match ZigBeePinConfig.pin e._config.toZigBeeConfig with
  | Except.error err => ⟨Except.error err, e._state, [], none⟩
  | Except.ok _pin =>
    match Dict.get? (ZigBeeDigitalPinConfig.bool2state e._config) state with
    | none => ⟨Except.error (PyErr.boolKeyError state), e._state, [], none⟩
    | some raw =>
      match ZigBeeConfig.address e._config.toZigBeeConfig with
      | Except.error err => ⟨Except.error err, e._state, [], none⟩
      | Except.ok _addr =>
        match writeRes with
        | Except.error err => ⟨Except.error err, e._state, [], some raw⟩
        | Except.ok _ =>
          if !pyTruthy (ZigBeeConfig.should_poll e._config.toZigBeeConfig) then
            ⟨Except.ok (), state, [state], some raw⟩
          else
            ⟨Except.ok (), state, [], some raw⟩

/-- `turn_on`: `self._set_state(True)`. -/
def ZigBeeDigitalOut.turn_on (e : ZigBeeDigitalIn)
    (writeRes : Except PyErr Unit) : DigitalOutcome :=
  ZigBeeDigitalOut._set_state e writeRes true

/-- `turn_off`: `self._set_state(False)`. -/
def ZigBeeDigitalOut.turn_off (e : ZigBeeDigitalIn)
    (writeRes : Except PyErr Unit) : DigitalOutcome :=
  ZigBeeDigitalOut._set_state e writeRes false

/-- `ZigBeeAnalogIn`: config reference plus cached value
(`None` until the first completed read). -/
structure ZigBeeAnalogIn where
  _config : ZigBeePinConfig
  _value : Option ℚ
deriving Repr

/-- `ZigBeeAnalogIn.__init__`: store the config and set
`self._value = None`. -/
def ZigBeeAnalogIn.init (config : ZigBeePinConfig) : ZigBeeAnalogIn :=
  { _config := config, _value := none }

/-- Property `state`: the cached value. -/
def ZigBeeAnalogIn.state (e : ZigBeeAnalogIn) : Option ℚ :=
  e._value

/-- Property `unit_of_measurement`. -/
def ZigBeeAnalogIn.unit_of_measurement (_e : ZigBeeAnalogIn) : String :=
  "%"

/-- Outcome of one `ZigBeeAnalogIn.update` call. -/
structure AnalogOutcome where
  result : Except PyErr Unit
  _value : Option ℚ
deriving Repr

/-- `ZigBeeAnalogIn.update`: evaluate `self._config.pin`,
`self._config.max_voltage` and `self._config.address`, call
`DEVICE.read_analog_pin` (result given by the oracle `driverRes`) and store
its return value verbatim in `self._value`. -/
def ZigBeeAnalogIn.update (e : ZigBeeAnalogIn)
    (driverRes : Except PyErr ℚ) : AnalogOutcome :=
  match ZigBeePinConfig.pin e._config with
  | Except.error err => ⟨Except.error err, e._value⟩
  | Except.ok _pin =>
    match ZigBeeAnalogInConfig.max_voltage e._config with
    | Except.error err => ⟨Except.error err, e._value⟩
    | Except.ok _mv =>
      match ZigBeeConfig.address e._config with
      | Except.error err => ⟨Except.error err, e._value⟩
      | Except.ok _addr =>
        match driverRes with
        | Except.error err => ⟨Except.error err, e._value⟩
        | Except.ok reading => ⟨Except.ok (), some reading⟩

/-! ### Helper lemmas about the constructed polarity dicts -/

/-- `bool2state` of a freshly constructed digital pin config: both boolean
keys are present and map to the polarity-selected sentinels. -/
theorem bool2state_init_get (dc : DriverConsts) (cfg : Config) (b : Bool) :
    Dict.get? (ZigBeeDigitalPinConfig.bool2state (ZigBeeDigitalPinConfig.init dc cfg)) b =
      some (if onStateIsLow cfg then (if b then dc.gpioLow else dc.gpioHigh)
            else if b then dc.gpioHigh else dc.gpioLow) := by
  unfold ZigBeeDigitalPinConfig.bool2state ZigBeeDigitalPinConfig.init boolean_maps
  by_cases h : onStateIsLow cfg <;> cases b <;>
    simp [h, Dict.insert, Dict.empty, Dict.get?]

/-- `state2bool` of a freshly constructed digital pin config, assuming the two
driver sentinels are distinct. -/
theorem state2bool_init_eq (dc : DriverConsts) (cfg : Config)
    (hne : dc.gpioLow ≠ dc.gpioHigh) :
    ZigBeeDigitalPinConfig.state2bool (ZigBeeDigitalPinConfig.init dc cfg) =
      if onStateIsLow cfg then [(dc.gpioLow, true), (dc.gpioHigh, false)]
      else [(dc.gpioHigh, true), (dc.gpioLow, false)] := by
  unfold ZigBeeDigitalPinConfig.state2bool ZigBeeDigitalPinConfig.init boolean_maps
  by_cases h : onStateIsLow cfg <;>
    simp [h, Dict.items, Dict.insert, Dict.empty, hne, Ne.symm hne]

/-- A raw level equal to neither sentinel is absent from `state2bool`
(whether or not the sentinels are distinct). -/
theorem state2bool_init_get_none (dc : DriverConsts) (cfg : Config) (r : RawLevel)
    (h1 : r ≠ dc.gpioLow) (h2 : r ≠ dc.gpioHigh) :
    Dict.get? (ZigBeeDigitalPinConfig.state2bool (ZigBeeDigitalPinConfig.init dc cfg)) r =
      none := by
  unfold ZigBeeDigitalPinConfig.state2bool ZigBeeDigitalPinConfig.init boolean_maps
  by_cases h : onStateIsLow cfg <;> by_cases he : dc.gpioLow = dc.gpioHigh <;>
    simp [h, he, Dict.items, Dict.insert, Dict.empty, Dict.get?,
      Ne.symm h1, Ne.symm h2]
  rw [if_neg (fun hh => he hh.symm)]
  simp [Dict.get?, Ne.symm h1, Ne.symm h2]

/-- The polarity test resolves to `s.toLower == "low"` when `on_state` is the
string `s`, and to `false` when `on_state` is absent. -/
theorem onStateIsLow_of_str (config : Config) (s : String)
    (hs : Config.get? config "on_state" = some (PyVal.str s)) :
    onStateIsLow config = (pyLower s == "low") := by
  unfold Config.get? at hs
  simp [onStateIsLow, Config.getD, hs]

/-- With no `on_state` key the polarity test is `false` (default `"high"`). -/
theorem onStateIsLow_of_none (config : Config)
    (hs : Config.get? config "on_state" = none) :
    onStateIsLow config = false := by
  unfold Config.get? at hs
  simp [onStateIsLow, Config.getD, hs]
  decide

/-- C1: Polarity forward mapping — if the configured `on_state` is a string
comparing case-insensitively equal to `"low"`, `bool2state` maps `true` to the
driver's LOW sentinel and `false` to HIGH; for any other string (including
`"high"` and unrecognized values, none of which raises an error) and when
`on_state` is absent, `true` maps to HIGH and `false` to LOW. -/
theorem polarity_forward_mapping (dc : DriverConsts) (config : Config) :
    (∀ s : String, Config.get? config "on_state" = some (PyVal.str s) →
      (pyLower s = "low" →
        Dict.get? (ZigBeeDigitalPinConfig.bool2state
          (ZigBeeDigitalPinConfig.init dc config)) true = some dc.gpioLow ∧
        Dict.get? (ZigBeeDigitalPinConfig.bool2state
          (ZigBeeDigitalPinConfig.init dc config)) false = some dc.gpioHigh) ∧
      (pyLower s ≠ "low" →
        Dict.get? (ZigBeeDigitalPinConfig.bool2state
          (ZigBeeDigitalPinConfig.init dc config)) true = some dc.gpioHigh ∧
        Dict.get? (ZigBeeDigitalPinConfig.bool2state
          (ZigBeeDigitalPinConfig.init dc config)) false = some dc.gpioLow)) ∧
    (Config.get? config "on_state" = none →
      Dict.get? (ZigBeeDigitalPinConfig.bool2state
        (ZigBeeDigitalPinConfig.init dc config)) true = some dc.gpioHigh ∧
      Dict.get? (ZigBeeDigitalPinConfig.bool2state
        (ZigBeeDigitalPinConfig.init dc config)) false = some dc.gpioLow) := by
  constructor
  · intro s hs
    have hon := onStateIsLow_of_str config s hs
    constructor
    · intro hlow
      have h : onStateIsLow config = true := by simp [hon, hlow]
      simp [bool2state_init_get, h]
    · intro hnot
      have h : onStateIsLow config = false := by simp [hon]; exact hnot
      simp [bool2state_init_get, h]
  · intro hnone
    have h : onStateIsLow config = false := onStateIsLow_of_none config hnone
    simp [bool2state_init_get, h]

/-- Witness for C1 at concrete inputs: `on_state = "LOW"` selects the
inverted mapping, and an unrecognized `on_state = "floor"` selects the
default mapping. -/
theorem polarity_forward_mapping_witness :
    (Dict.get? (ZigBeeDigitalPinConfig.bool2state
      (ZigBeeDigitalPinConfig.init ⟨4, 5⟩ [("on_state", PyVal.str "LOW")])) true
        = some 4 ∧
     Dict.get? (ZigBeeDigitalPinConfig.bool2state
      (ZigBeeDigitalPinConfig.init ⟨4, 5⟩ [("on_state", PyVal.str "LOW")])) false
        = some 5) ∧
    (Dict.get? (ZigBeeDigitalPinConfig.bool2state
      (ZigBeeDigitalPinConfig.init ⟨4, 5⟩ [("on_state", PyVal.str "floor")])) true
        = some 5 ∧
     Dict.get? (ZigBeeDigitalPinConfig.bool2state
      (ZigBeeDigitalPinConfig.init ⟨4, 5⟩ [("on_state", PyVal.str "floor")])) false
        = some 4) :=
  ⟨((polarity_forward_mapping ⟨4, 5⟩ [("on_state", PyVal.str "LOW")]).1 "LOW"
      (by decide)).1 (by decide),
   ((polarity_forward_mapping ⟨4, 5⟩ [("on_state", PyVal.str "floor")]).1 "floor"
      (by decide)).2 (by decide)⟩

/-- C2: Polarity inverse round-trip — with distinct driver sentinels,
`state2bool` is the exact set-inverse of `bool2state`: every boolean maps to
a raw level that maps back to it, and each of the two sentinel raw levels
maps to a boolean that maps back to it. -/
theorem polarity_round_trip (dc : DriverConsts) (config : Config)
    (hne : dc.gpioLow ≠ dc.gpioHigh) :
    (∀ b : Bool, ∃ r : RawLevel,
      Dict.get? (ZigBeeDigitalPinConfig.bool2state
        (ZigBeeDigitalPinConfig.init dc config)) b = some r ∧
      Dict.get? (ZigBeeDigitalPinConfig.state2bool
        (ZigBeeDigitalPinConfig.init dc config)) r = some b) ∧
    (∀ r : RawLevel, r = dc.gpioLow ∨ r = dc.gpioHigh →
      ∃ b : Bool,
        Dict.get? (ZigBeeDigitalPinConfig.state2bool
          (ZigBeeDigitalPinConfig.init dc config)) r = some b ∧
        Dict.get? (ZigBeeDigitalPinConfig.bool2state
          (ZigBeeDigitalPinConfig.init dc config)) b = some r) := by
  have hs2b := state2bool_init_eq dc config hne
  constructor
  · intro b
    by_cases h : onStateIsLow config
    · refine ⟨if b then dc.gpioLow else dc.gpioHigh, ?_, ?_⟩
      · simp [bool2state_init_get, h]
      · rw [hs2b]
        cases b <;> simp [h, Dict.get?, hne, Ne.symm hne]
    · refine ⟨if b then dc.gpioHigh else dc.gpioLow, ?_, ?_⟩
      · simp [bool2state_init_get, h]
      · rw [hs2b]
        cases b <;> simp [h, Dict.get?, hne, Ne.symm hne]
  · intro r hr
    by_cases h : onStateIsLow config
    · rcases hr with rfl | rfl
      · refine ⟨true, ?_, ?_⟩
        · rw [hs2b]; simp [h, Dict.get?]
        · simp [bool2state_init_get, h]
      · refine ⟨false, ?_, ?_⟩
        · rw [hs2b]; simp [h, Dict.get?, hne, Ne.symm hne]
        · simp [bool2state_init_get, h]
    · rcases hr with rfl | rfl
      · refine ⟨false, ?_, ?_⟩
        · rw [hs2b]; simp [h, Dict.get?, hne, Ne.symm hne]
        · simp [bool2state_init_get, h]
      · refine ⟨true, ?_, ?_⟩
        · rw [hs2b]; simp [h, Dict.get?]
        · simp [bool2state_init_get, h]

/-- Witness for C2 at concrete sentinels `LOW = 0`, `HIGH = 1` and an
`on_state = "low"` configuration. -/
theorem polarity_round_trip_witness :
    ∃ r : RawLevel,
      Dict.get? (ZigBeeDigitalPinConfig.bool2state
        (ZigBeeDigitalPinConfig.init ⟨0, 1⟩ [("on_state", PyVal.str "low")])) true
          = some r ∧
      Dict.get? (ZigBeeDigitalPinConfig.state2bool
        (ZigBeeDigitalPinConfig.init ⟨0, 1⟩ [("on_state", PyVal.str "low")])) r
          = some true :=
  (polarity_round_trip ⟨0, 1⟩ [("on_state", PyVal.str "low")] (by decide)).1 true

/-- C3: Default polling policy — with no `"poll"` key, a digital-input or
analog-input configuration polls (`should_poll` is `True`) while a
digital-output configuration does not (`False`); an explicit `"poll"` value
becomes `should_poll` for every kind, overriding the default. -/
theorem default_polling_policy (dc : DriverConsts) (config : Config) :
    (Config.get? config "poll" = none →
      ZigBeeConfig.should_poll (ZigBeeDigitalInConfig.init dc config).toZigBeeConfig
          = PyVal.bool true ∧
      ZigBeeConfig.should_poll (ZigBeeAnalogInConfig.init config) = PyVal.bool true ∧
      ZigBeeConfig.should_poll (ZigBeeDigitalOutConfig.init dc config).toZigBeeConfig
          = PyVal.bool false) ∧
    (∀ v : PyVal, Config.get? config "poll" = some v →
      ZigBeeConfig.should_poll (ZigBeeDigitalInConfig.init dc config).toZigBeeConfig = v ∧
      ZigBeeConfig.should_poll (ZigBeeAnalogInConfig.init config) = v ∧
      ZigBeeConfig.should_poll (ZigBeeDigitalOutConfig.init dc config).toZigBeeConfig
          = v) := by
  constructor
  · intro h
    unfold Config.get? at h
    simp [ZigBeeConfig.should_poll, ZigBeeDigitalInConfig.init,
      ZigBeeDigitalPinConfig.init, ZigBeeAnalogInConfig.init,
      ZigBeeDigitalOutConfig.init, ZigBeeConfig.init, Config.getD, h]
  · intro v h
    unfold Config.get? at h
    simp [ZigBeeConfig.should_poll, ZigBeeDigitalInConfig.init,
      ZigBeeDigitalPinConfig.init, ZigBeeAnalogInConfig.init,
      ZigBeeDigitalOutConfig.init, ZigBeeConfig.init, Config.getD, h]

/-- Witness for C3: the kind-specific defaults on an empty mapping, and an
explicit `"poll": True` overriding the digital-output default. -/
theorem default_polling_policy_witness :
    (ZigBeeConfig.should_poll (ZigBeeDigitalInConfig.init ⟨0, 1⟩ []).toZigBeeConfig
        = PyVal.bool true ∧
     ZigBeeConfig.should_poll (ZigBeeAnalogInConfig.init []) = PyVal.bool true ∧
     ZigBeeConfig.should_poll (ZigBeeDigitalOutConfig.init ⟨0, 1⟩ []).toZigBeeConfig
        = PyVal.bool false) ∧
    (ZigBeeConfig.should_poll
        (ZigBeeDigitalOutConfig.init ⟨0, 1⟩ [("poll", PyVal.bool true)]).toZigBeeConfig
        = PyVal.bool true) :=
  ⟨(default_polling_policy ⟨0, 1⟩ []).1 rfl,
   ((default_polling_policy ⟨0, 1⟩ [("poll", PyVal.bool true)]).2
      (PyVal.bool true) (by decide)).2.2⟩

/-- C4: Analog max-voltage configuration — no `"max_volts"` key yields
`max_voltage = 1.2`; the string `"3.3"` is coerced by `float()` to the number
`3.3`; and any numeric value, including zero or negative ones, is accepted
unchanged. -/
theorem analog_max_voltage (config : Config) :
    (Config.get? config "max_volts" = none →
      ZigBeeAnalogInConfig.max_voltage (ZigBeeAnalogInConfig.init config)
        = Except.ok (1.2 : ℚ)) ∧
    (Config.get? config "max_volts" = some (PyVal.str "3.3") →
      ZigBeeAnalogInConfig.max_voltage (ZigBeeAnalogInConfig.init config)
        = Except.ok (3.3 : ℚ)) ∧
    (∀ q : ℚ, Config.get? config "max_volts" = some (PyVal.rat q) →
      ZigBeeAnalogInConfig.max_voltage (ZigBeeAnalogInConfig.init config)
        = Except.ok q) := by
  refine ⟨?_, ?_, ?_⟩
  · intro h
    unfold Config.get? at h
    have h12 : DEFAULT_ADC_MAX_VOLTS = (1.2 : ℚ) := by
      norm_num [DEFAULT_ADC_MAX_VOLTS]
    simp [ZigBeeAnalogInConfig.max_voltage, ZigBeeAnalogInConfig.init,
      ZigBeeConfig.init, Config.getD, h, pyFloat, h12]
  · intro h
    unfold Config.get? at h
    have h33 : pyParseFloat "3.3" = some (3.3 : ℚ) := by
      simp +decide [pyParseFloat, trimChars, decDigits?, hexVal?]
      norm_num
    simp [ZigBeeAnalogInConfig.max_voltage, ZigBeeAnalogInConfig.init,
      ZigBeeConfig.init, Config.getD, h, pyFloat, h33]
  · intro q h
    unfold Config.get? at h
    simp [ZigBeeAnalogInConfig.max_voltage, ZigBeeAnalogInConfig.init,
      ZigBeeConfig.init, Config.getD, h, pyFloat]

/-- Witness for C4: the default, the `"3.3"` string coercion, and a negative
numeric value accepted unchanged. -/
theorem analog_max_voltage_witness :
    ZigBeeAnalogInConfig.max_voltage (ZigBeeAnalogInConfig.init [])
        = Except.ok (1.2 : ℚ) ∧
    ZigBeeAnalogInConfig.max_voltage
        (ZigBeeAnalogInConfig.init [("max_volts", PyVal.str "3.3")])
        = Except.ok (3.3 : ℚ) ∧
    ZigBeeAnalogInConfig.max_voltage
        (ZigBeeAnalogInConfig.init [("max_volts", PyVal.rat (-2))])
        = Except.ok (-2 : ℚ) :=
  ⟨(analog_max_voltage []).1 rfl,
   (analog_max_voltage [("max_volts", PyVal.str "3.3")]).2.1 (by decide),
   (analog_max_voltage [("max_volts", PyVal.rat (-2))]).2.2 (-2) (by decide)⟩

/-- The digital-out config shares the digital pin config's polarity dicts;
only `_should_poll` differs. -/
theorem out_init_bool2state (dc : DriverConsts) (cfg : Config) :
    ZigBeeDigitalPinConfig.bool2state (ZigBeeDigitalOutConfig.init dc cfg) =
      ZigBeeDigitalPinConfig.bool2state (ZigBeeDigitalPinConfig.init dc cfg) := rfl

/-- C5: Digital output successful write — for every desired boolean and prior
cached state, when the driver write succeeds the cached state becomes the
desired value and the raw value written is `bool2state[desired]`; when
`should_poll` is falsy exactly one notification is emitted synchronously
after the write, and when it is truthy `_set_state` emits none. -/
theorem digital_out_write_success (dc : DriverConsts) (cfg : Config)
    (prior desired p : Bool) (pv : PyVal) (a : Option (List Nat))
    (hpin : Config.get? cfg "pin" = some pv)
    (haddr : ZigBeeConfig.address (ZigBeeConfig.init cfg) = Except.ok a)
    (hpoll : pyTruthy (ZigBeeConfig.should_poll
        (ZigBeeDigitalOutConfig.init dc cfg).toZigBeeConfig) = p) :
    (ZigBeeDigitalOut._set_state ⟨ZigBeeDigitalOutConfig.init dc cfg, prior⟩
        (Except.ok ()) desired).result = Except.ok () ∧
    (ZigBeeDigitalOut._set_state ⟨ZigBeeDigitalOutConfig.init dc cfg, prior⟩
        (Except.ok ()) desired)._state = desired ∧
    (ZigBeeDigitalOut._set_state ⟨ZigBeeDigitalOutConfig.init dc cfg, prior⟩
        (Except.ok ()) desired).written
      = Dict.get? (ZigBeeDigitalPinConfig.bool2state
          (ZigBeeDigitalOutConfig.init dc cfg)) desired ∧
    (ZigBeeDigitalOut._set_state ⟨ZigBeeDigitalOutConfig.init dc cfg, prior⟩
        (Except.ok ()) desired).notifications
      = (if p then [] else [desired]) := by
  have haddr' : ZigBeeConfig.address
      (ZigBeeDigitalOutConfig.init dc cfg).toZigBeeConfig = Except.ok a := haddr
  have hpin' : ZigBeePinConfig.pin
      (ZigBeeDigitalOutConfig.init dc cfg).toZigBeeConfig = Except.ok pv := by
    unfold Config.get? at hpin
    simp [ZigBeePinConfig.pin, ZigBeeDigitalOutConfig.init,
      ZigBeeDigitalPinConfig.init, ZigBeeConfig.init, Config.get?, hpin]
  have hb := bool2state_init_get dc cfg desired
  rw [← out_init_bool2state] at hb
  unfold ZigBeeDigitalOut._set_state
  rw [hpin', hb, haddr', hpoll]
  cases p <;> simp [hb]

/-- Witness for C5: a digital output on pin 0 with default (non-polling)
config; writing `true` succeeds, caches `true`, writes the HIGH sentinel and
notifies once. -/
theorem digital_out_write_success_witness :
    (ZigBeeDigitalOut._set_state ⟨ZigBeeDigitalOutConfig.init ⟨0, 1⟩
        [("pin", PyVal.int 0)], false⟩ (Except.ok ()) true).result
      = Except.ok () ∧
    (ZigBeeDigitalOut._set_state ⟨ZigBeeDigitalOutConfig.init ⟨0, 1⟩
        [("pin", PyVal.int 0)], false⟩ (Except.ok ()) true)._state = true ∧
    (ZigBeeDigitalOut._set_state ⟨ZigBeeDigitalOutConfig.init ⟨0, 1⟩
        [("pin", PyVal.int 0)], false⟩ (Except.ok ()) true).written
      = Dict.get? (ZigBeeDigitalPinConfig.bool2state
          (ZigBeeDigitalOutConfig.init ⟨0, 1⟩ [("pin", PyVal.int 0)])) true ∧
    (ZigBeeDigitalOut._set_state ⟨ZigBeeDigitalOutConfig.init ⟨0, 1⟩
        [("pin", PyVal.int 0)], false⟩ (Except.ok ()) true).notifications
      = [true] :=
  digital_out_write_success ⟨0, 1⟩ [("pin", PyVal.int 0)] false true false
    (PyVal.int 0) none (by decide) rfl (by decide)

/-- C6: Digital output failed write is atomic — when the driver write raises,
the cached state keeps its prior value, no notification is emitted, and the
error propagates to the caller. -/
theorem digital_out_write_failure (dc : DriverConsts) (cfg : Config)
    (prior desired : Bool) (err : PyErr) (pv : PyVal) (a : Option (List Nat))
    (hpin : Config.get? cfg "pin" = some pv)
    (haddr : ZigBeeConfig.address (ZigBeeConfig.init cfg) = Except.ok a) :
    (ZigBeeDigitalOut._set_state ⟨ZigBeeDigitalOutConfig.init dc cfg, prior⟩
        (Except.error err) desired).result = Except.error err ∧
    (ZigBeeDigitalOut._set_state ⟨ZigBeeDigitalOutConfig.init dc cfg, prior⟩
        (Except.error err) desired)._state = prior ∧
    (ZigBeeDigitalOut._set_state ⟨ZigBeeDigitalOutConfig.init dc cfg, prior⟩
        (Except.error err) desired).notifications = [] := by
  have haddr' : ZigBeeConfig.address
      (ZigBeeDigitalOutConfig.init dc cfg).toZigBeeConfig = Except.ok a := haddr
  have hpin' : ZigBeePinConfig.pin
      (ZigBeeDigitalOutConfig.init dc cfg).toZigBeeConfig = Except.ok pv := by
    unfold Config.get? at hpin
    simp [ZigBeePinConfig.pin, ZigBeeDigitalOutConfig.init,
      ZigBeeDigitalPinConfig.init, ZigBeeConfig.init, Config.get?, hpin]
  have hb := bool2state_init_get dc cfg desired
  rw [← out_init_bool2state] at hb
  unfold ZigBeeDigitalOut._set_state
  rw [hpin', hb, haddr']
  simp

/-- Witness for C6: a failed driver write on the concrete output entity
propagates the error, leaves the cached `false` untouched and notifies
nobody. -/
theorem digital_out_write_failure_witness :
    (ZigBeeDigitalOut._set_state ⟨ZigBeeDigitalOutConfig.init ⟨0, 1⟩
        [("pin", PyVal.int 0)], false⟩
        (Except.error (PyErr.driverError 3)) true).result
      = Except.error (PyErr.driverError 3) ∧
    (ZigBeeDigitalOut._set_state ⟨ZigBeeDigitalOutConfig.init ⟨0, 1⟩
        [("pin", PyVal.int 0)], false⟩
        (Except.error (PyErr.driverError 3)) true)._state = false ∧
    (ZigBeeDigitalOut._set_state ⟨ZigBeeDigitalOutConfig.init ⟨0, 1⟩
        [("pin", PyVal.int 0)], false⟩
        (Except.error (PyErr.driverError 3)) true).notifications = [] :=
  digital_out_write_failure ⟨0, 1⟩ [("pin", PyVal.int 0)] false true
    (PyErr.driverError 3) (PyVal.int 0) none (by decide) rfl

/-- C7: Unmapped raw level on digital read — when the driver returns a raw
level equal to neither configured sentinel, `update` raises the `KeyError`
the spec calls `UnmappedRawLevelError` and the cached state is unchanged;
when the level is found in `state2bool`, the cached state becomes its
boolean. -/
theorem digital_in_unmapped_raw_level (dc : DriverConsts) (cfg : Config)
    (prior : Bool) (r : RawLevel) (pv : PyVal) (a : Option (List Nat))
    (hpin : Config.get? cfg "pin" = some pv)
    (haddr : ZigBeeConfig.address (ZigBeeConfig.init cfg) = Except.ok a) :
    (r ≠ dc.gpioLow → r ≠ dc.gpioHigh →
      (ZigBeeDigitalIn.update ⟨ZigBeeDigitalPinConfig.init dc cfg, prior⟩
          (Except.ok r)).result = Except.error (PyErr.unmappedRawLevel r) ∧
      (ZigBeeDigitalIn.update ⟨ZigBeeDigitalPinConfig.init dc cfg, prior⟩
          (Except.ok r))._state = prior) ∧
    (∀ b : Bool,
      Dict.get? (ZigBeeDigitalPinConfig.state2bool
        (ZigBeeDigitalPinConfig.init dc cfg)) r = some b →
      (ZigBeeDigitalIn.update ⟨ZigBeeDigitalPinConfig.init dc cfg, prior⟩
          (Except.ok r)).result = Except.ok () ∧
      (ZigBeeDigitalIn.update ⟨ZigBeeDigitalPinConfig.init dc cfg, prior⟩
          (Except.ok r))._state = b) := by
  have haddr' : ZigBeeConfig.address
      (ZigBeeDigitalPinConfig.init dc cfg).toZigBeeConfig = Except.ok a := haddr
  have hpin' : ZigBeePinConfig.pin
      (ZigBeeDigitalPinConfig.init dc cfg).toZigBeeConfig = Except.ok pv := by
    unfold Config.get? at hpin
    simp [ZigBeePinConfig.pin, ZigBeeDigitalPinConfig.init,
      ZigBeeConfig.init, Config.get?, hpin]
  constructor
  · intro h1 h2
    have hnone := state2bool_init_get_none dc cfg r h1 h2
    simp [ZigBeeDigitalIn.update, hpin', haddr', hnone]
  · intro b hb
    simp [ZigBeeDigitalIn.update, hpin', haddr', hb]

/-- Witness for C7: with sentinels `0`/`1`, the out-of-range level `9` raises
and preserves the cached state, while the mapped level `1` sets it. -/
theorem digital_in_unmapped_raw_level_witness :
    ((ZigBeeDigitalIn.update ⟨ZigBeeDigitalPinConfig.init ⟨0, 1⟩
        [("pin", PyVal.int 0)], false⟩ (Except.ok 9)).result
      = Except.error (PyErr.unmappedRawLevel 9) ∧
     (ZigBeeDigitalIn.update ⟨ZigBeeDigitalPinConfig.init ⟨0, 1⟩
        [("pin", PyVal.int 0)], false⟩ (Except.ok 9))._state = false) ∧
    ((ZigBeeDigitalIn.update ⟨ZigBeeDigitalPinConfig.init ⟨0, 1⟩
        [("pin", PyVal.int 0)], false⟩ (Except.ok 1)).result = Except.ok () ∧
     (ZigBeeDigitalIn.update ⟨ZigBeeDigitalPinConfig.init ⟨0, 1⟩
        [("pin", PyVal.int 0)], false⟩ (Except.ok 1))._state = true) :=
  ⟨(digital_in_unmapped_raw_level ⟨0, 1⟩ [("pin", PyVal.int 0)] false 9
      (PyVal.int 0) none (by decide) rfl).1 (by decide) (by decide),
   (digital_in_unmapped_raw_level ⟨0, 1⟩ [("pin", PyVal.int 0)] false 1
      (PyVal.int 0) none (by decide) rfl).2 true (by decide)⟩

/-- Counterexample to C8: with the invalid hex address `"zz"`, construction
(`ZigBeeConfig.__init__`) completes normally — it stores the mapping without
touching the address — and the `binascii` failure only appears when the
`address` property is evaluated.  So the decode error is deferred to access
time, not raised at construction. -/
theorem address_error_deferred_counterexample :
    ZigBeeConfig.init [("address", PyVal.str "zz")] =
      { _config := [("address", PyVal.str "zz")],
        _should_poll := PyVal.bool true } ∧
    ZigBeeConfig.address (ZigBeeConfig.init [("address", PyVal.str "zz")]) =
      Except.error PyErr.binasciiError :=
  ⟨rfl, rfl⟩

/-- C8 (amended): an absent `"address"` key yields address `None`; a present
address string is decoded with `unhexlify` on each access of the `address`
property, so an invalid hex string raises only at access time while
construction itself succeeds and merely stores the raw mapping. -/
theorem address_decoding_amended (cfg : Config) :
    (ZigBeeConfig.init cfg)._config = cfg ∧
    (Config.get? cfg "address" = none →
      ZigBeeConfig.address (ZigBeeConfig.init cfg) = Except.ok none) ∧
    (∀ s : String, Config.get? cfg "address" = some (PyVal.str s) →
      ZigBeeConfig.address (ZigBeeConfig.init cfg) = (unhexlify s).map some) := by
  refine ⟨rfl, ?_, ?_⟩
  · intro h
    unfold Config.get? at h
    simp [ZigBeeConfig.address, ZigBeeConfig.init, Config.get?, h]
  · intro s h
    unfold Config.get? at h
    simp [ZigBeeConfig.address, ZigBeeConfig.init, Config.get?, h]

/-- Witness for the amended C8: no address key gives `None`; the valid hex
string `"20a1"` decodes to the bytes `[0x20, 0xA1]` at property access. -/
theorem address_decoding_amended_witness :
    ZigBeeConfig.address (ZigBeeConfig.init []) = Except.ok none ∧
    ZigBeeConfig.address (ZigBeeConfig.init [("address", PyVal.str "20a1")]) =
      Except.ok (some [32, 161]) :=
  ⟨(address_decoding_amended []).2.1 rfl,
   ((address_decoding_amended [("address", PyVal.str "20a1")]).2.2 "20a1" rfl).trans
     rfl⟩

/-- Counterexample to C9: constructing a pin configuration from the empty
mapping — which lacks both `"pin"` and `"name"` — succeeds; the `KeyError`
for each missing field is raised only when that property is accessed. -/
theorem missing_fields_deferred_counterexample :
    ZigBeePinConfig.init [] =
      { _config := [], _should_poll := PyVal.bool true } ∧
    ZigBeePinConfig.pin (ZigBeePinConfig.init []) =
      Except.error (PyErr.keyError "pin") ∧
    ZigBeeConfig.name (ZigBeePinConfig.init []) =
      Except.error (PyErr.keyError "name") :=
  ⟨rfl, rfl, rfl⟩

/-- C9 (amended): a pin configuration built from a mapping lacking `"pin"`
(or `"name"`) is constructed successfully — the mapping is stored as-is —
and the `KeyError` for the missing field surfaces only when the `pin`
(resp. `name`) property is later accessed. -/
theorem missing_fields_amended (cfg : Config) :
    (ZigBeePinConfig.init cfg)._config = cfg ∧
    (Config.get? cfg "pin" = none →
      ZigBeePinConfig.pin (ZigBeePinConfig.init cfg) =
        Except.error (PyErr.keyError "pin")) ∧
    (Config.get? cfg "name" = none →
      ZigBeeConfig.name (ZigBeePinConfig.init cfg) =
        Except.error (PyErr.keyError "name")) := by
  refine ⟨rfl, ?_, ?_⟩
  · intro h
    unfold Config.get? at h
    simp [ZigBeePinConfig.pin, ZigBeePinConfig.init, ZigBeeConfig.init,
      Config.get?, h]
  · intro h
    unfold Config.get? at h
    simp [ZigBeeConfig.name, ZigBeePinConfig.init, ZigBeeConfig.init,
      Config.get?, h]

/-- Witness for the amended C9 on a mapping carrying only a name: the missing
`"pin"` errors at property access while construction stored the mapping. -/
theorem missing_fields_amended_witness :
    (ZigBeePinConfig.init [("name", PyVal.str "Lamp")])._config
        = [("name", PyVal.str "Lamp")] ∧
    ZigBeePinConfig.pin (ZigBeePinConfig.init [("name", PyVal.str "Lamp")]) =
      Except.error (PyErr.keyError "pin") :=
  ⟨(missing_fields_amended [("name", PyVal.str "Lamp")]).1,
   (missing_fields_amended [("name", PyVal.str "Lamp")]).2.1 rfl⟩

/-- C10: analog readings are cached verbatim — whatever value the driver's
`read_analog_pin` returns (including values outside 0–100) becomes the
cached state unchanged, and before the first completed read the state is
`None`. -/
theorem analog_cached_verbatim (cfg : Config) (prior : Option ℚ) (v : ℚ)
    (pv : PyVal) (mv : ℚ) (a : Option (List Nat))
    (hpin : Config.get? cfg "pin" = some pv)
    (hmv : ZigBeeAnalogInConfig.max_voltage (ZigBeeAnalogInConfig.init cfg)
        = Except.ok mv)
    (haddr : ZigBeeConfig.address (ZigBeeAnalogInConfig.init cfg)
        = Except.ok a) :
    (ZigBeeAnalogIn.update ⟨ZigBeeAnalogInConfig.init cfg, prior⟩
        (Except.ok v)).result = Except.ok () ∧
    (ZigBeeAnalogIn.update ⟨ZigBeeAnalogInConfig.init cfg, prior⟩
        (Except.ok v))._value = some v ∧
    ZigBeeAnalogIn.state (ZigBeeAnalogIn.init (ZigBeeAnalogInConfig.init cfg))
        = none := by
  have hpin' : ZigBeePinConfig.pin (ZigBeeAnalogInConfig.init cfg)
      = Except.ok pv := by
    unfold Config.get? at hpin
    simp [ZigBeePinConfig.pin, ZigBeeAnalogInConfig.init, ZigBeeConfig.init,
      Config.get?, hpin]
  refine ⟨?_, ?_, rfl⟩ <;>
    simp [ZigBeeAnalogIn.update, hpin', hmv, haddr]

/-- Witness for C10: a reading of `150` (outside 0–100) is stored exactly,
and the freshly constructed entity's state is `None`. -/
theorem analog_cached_verbatim_witness :
    (ZigBeeAnalogIn.update ⟨ZigBeeAnalogInConfig.init [("pin", PyVal.int 0)],
        none⟩ (Except.ok 150)).result = Except.ok () ∧
    (ZigBeeAnalogIn.update ⟨ZigBeeAnalogInConfig.init [("pin", PyVal.int 0)],
        none⟩ (Except.ok 150))._value = some 150 ∧
    ZigBeeAnalogIn.state
        (ZigBeeAnalogIn.init (ZigBeeAnalogInConfig.init [("pin", PyVal.int 0)]))
        = none :=
  analog_cached_verbatim [("pin", PyVal.int 0)] none 150 (PyVal.int 0)
    DEFAULT_ADC_MAX_VOLTS none (by decide) rfl rfl
